import Mathlib

/-!
Verification development for the tap-square extraction core
(src/tap_square/client.py). The Python source is shallowly embedded:
pure helpers become Lean functions, the paginator generators become
explicit loops producing the list of issued requests and yielded
batches, network calls become oracle parameters, and the token-refresh
side effects become explicit state passing.
-/

/-- Python truthiness of an optional string value (None and the empty
string are falsy, every other string is truthy). -/
def cursorTruthy : Option String → Bool
  | none => false
  | some s => !(s == "")

/-- Substring test on character lists: true when the pattern occurs
contiguously in the haystack (models the Python expression
pat in s for strings). -/
def containsSub (pat : List Char) : List Char → Bool
  | [] => pat.isEmpty
  | c :: rest => pat.isPrefixOf (c :: rest) || containsSub pat rest

/-- Python substring containment pat in hay for strings. -/
def pyStrContains (hay pat : String) : Bool :=
  containsSub pat.toList hay.toList

/-- Strip every character in cs from both ends of a character list
(models Python str.strip(chars)). -/
def stripChars (cs : List Char) (s : List Char) : List Char :=
  ((s.dropWhile (fun c => cs.contains c)).reverse.dropWhile
    (fun c => cs.contains c)).reverse

/-- Split a character list on a separator character; models Python
str.split(sep) restricted to a one-character separator. -/
def splitOnChar (sep : Char) : List Char → List (List Char)
  | [] => [[]]
  | c :: rest =>
    let r := splitOnChar sep rest
    if c == sep then [] :: r
    else
      match r with
      | [] => [[c]]
      | h :: t => (c :: h) :: t

/-- The first segment of requests.utils.parse_header_links' split of a
link header value on the regex comma-spaces-langle: characters up to
the first comma that is followed (after spaces) by a left angle
bracket. -/
def firstLinkSegment : List Char → List Char
  | [] => []
  | c :: rest =>
    if c == ',' && (rest.dropWhile (fun x => x == ' ')).head? == some '<' then []
    else c :: firstLinkSegment rest

/-- Model of requests.utils.parse_header_links(value)[0]["url"]: strip
the outer quote characters, take the first link segment, cut it at the
first semicolon, and strip angle brackets, spaces and quotes. -/
def firstLinkUrl (value : List Char) : List Char :=
  let v := stripChars [' ', '\'', '"'] value
  let seg := firstLinkSegment v
  let url := (splitOnChar ';' seg).headD []
  stripChars ['<', '>', ' ', '\'', '"'] url

/-- Model of the query component extraction of urllib.parse.urlparse:
drop the fragment (everything from the first hash sign), then take
everything after the first question mark. -/
def urlQueryOf (url : List Char) : List Char :=
  let noFrag := (splitOnChar '#' url).headD []
  match splitOnChar '?' noFrag with
  | [] => []
  | [_] => []
  | _ :: q :: rest => List.intercalate ['?'] (q :: rest)

/-- Model of urllib.parse.parse_qs restricted to what the source uses:
split the query on ampersands, split each field at its first equals
sign, drop fields without an equals sign or with an empty value
(keep_blank_values defaults to False). Percent decoding is not
modelled; the tokens involved are plain. -/
def parseQs (q : List Char) : List (List Char × List Char) :=
  (splitOnChar '&' q).filterMap fun field =>
    match splitOnChar '=' field with
    | [] => none
    | [_] => none
    | k :: v :: rest =>
      let val := List.intercalate ['='] (v :: rest)
      if val.isEmpty then none else some (k, val)

/-- Shallow embedding of get_batch_token_from_headers. Headers are an
association list; a missing or empty link header yields none; when the
link header is present the first link URL's query is parsed and the
batch_token parameter is read with a plain dictionary subscript, so an
absent batch_token parameter raises KeyError (modelled as the error
branch of Except). -/
def get_batch_token_from_headers (headers : List (String × String)) :
    Except String (Option String) :=
  match headers.lookup "link" with
  | none => .ok none
  | some link =>
    if link == "" then .ok none
    else
      let url := firstLinkUrl link.toList
      let q := parseQs (urlQueryOf url)
      match q.find? (fun kv => kv.1 == "batch_token".toList) with
      | some kv => .ok (some (String.mk kv.2))
      | none => .error "KeyError: batch_token"

/-- An exception as seen by the backoff giveup predicate: the optional
HTTP status of an attached response. RetryableError and RuntimeError
instances raised by _retryable_v2_method are built from the error
message only and carry no response attribute, hence none; the
HTTPError raised by raise_for_status in _retryable_v1_method carries
its response's status. -/
structure RaisedExc where
  response_status : Option Int
deriving DecidableEq

/-- Shallow embedding of should_not_retry: true exactly when the
exception has a response whose status code is 400 or 401. -/
def should_not_retry (ex : RaisedExc) : Bool :=
  match ex.response_status with
  | some s => s == 400 || s == 401
  | none => false

/-- The error payload of a Square API response: the source applies the
Python operator in to it, which is substring search on a string and
membership on a list. -/
inductive PyVal where
  | str (s : String)
  | lst (l : List String)
deriving DecidableEq

/-- Python pat in payload for the two payload shapes the source
handles. -/
def pyContains (needle : String) : PyVal → Bool
  | .str s => pyStrContains s needle
  | .lst l => l.contains needle

/-- Python isinstance(x, str) and x.startswith HTML doctype check from
_retryable_v2_method. -/
def pyStartsHtml : PyVal → Bool
  | .str s => s.startsWith "<!DOCTYPE html>"
  | .lst _ => false

/-- A Square SDK ApiResponse as consumed by _retryable_v2_method:
error flag, HTTP status code, errors list and raw body. -/
structure ApiResponse where
  is_error : Bool
  status_code : Int
  errors : List String
  body : PyVal
deriving DecidableEq

/-- error_message computed in _retryable_v2_method: result.errors when
that list is truthy (non-empty), otherwise result.body. -/
def errorMessage (r : ApiResponse) : PyVal :=
  if r.errors = [] then r.body else .lst r.errors

/-- The retryable-conditions disjunction of _retryable_v2_method. -/
def v2Retryable (r : ApiResponse) : Bool :=
  let msg := errorMessage r
  pyContains "Service Unavailable" msg ||
  pyContains "upstream connect error or disconnect/reset before headers" msg ||
  pyContains "<span class=\"cf-error-code\">1101</span>" msg ||
  pyStartsHtml msg ||
  (r.status_code == 429 || decide (500 ≤ r.status_code))

/-- Outcome of one attempt of _retryable_v2_method: success,
RetryableError raised, or RuntimeError raised. -/
inductive V2Outcome where
  | ok
  | retryable (msg : PyVal)
  | fatal (msg : PyVal)
deriving DecidableEq

/-- One attempt of _retryable_v2_method: an error result raises
RetryableError when any retryable condition holds and RuntimeError
otherwise; a non-error result is returned. -/
def v2Attempt (r : ApiResponse) : V2Outcome :=
  if r.is_error then
    if v2Retryable r then .retryable (errorMessage r)
    else .fatal (errorMessage r)
  else .ok

/-- The exception object that _retryable_v2_method raises on a
retryable error: RetryableError(error_message), which carries no
response attribute. -/
def v2RaisedExc : RaisedExc := ⟨none⟩

/-- Whether the backoff decorator around _retryable_v2_method retries
after one attempt at response r: it retries exactly when the raised
exception is a RetryableError and the giveup predicate
should_not_retry rejects it. RuntimeError is not in the decorator's
exception list and propagates immediately. -/
def v2WillRetry (r : ApiResponse) : Bool :=
  match v2Attempt r with
  | .retryable _ => !(should_not_retry v2RaisedExc)
  | _ => false

/-- One attempt of _retryable_v1_method: raise_for_status raises an
HTTPError carrying the response (hence its status) for any 4xx or 5xx
status, and returns the result otherwise. -/
def v1Attempt (status : Int) : Option RaisedExc :=
  if 400 ≤ status && status < 600 then some ⟨some status⟩ else none

/-- Whether the backoff decorator around _retryable_v1_method retries
after an attempt that saw the given HTTP status: HTTPError is a
RequestException, so it retries exactly when an exception was raised
and should_not_retry rejects it. -/
def v1WillRetry (status : Int) : Bool :=
  match v1Attempt status with
  | some ex => !(should_not_retry ex)
  | none => false

/-- Number of days before expiry at which the access token is
refreshed. -/
def REFRESH_TOKEN_BEFORE : Int := 22

/-- Microseconds per day, the resolution of Python datetime values. -/
def usecPerDay : Int := 86400000000

/-- Outcome of the retrieve_token_status call observed by
require_new_access_token: either an error payload or the expires_at
instant of the token, in microseconds on an absolute timeline. -/
inductive TokenStatus where
  | err (payload : List String)
  | ok (expires_at : Int)
deriving DecidableEq

/-- Shallow embedding of require_new_access_token. The access token is
optional (config.get); a falsy token forces a refresh, an error from
the status endpoint forces a refresh, and otherwise the token must be
refreshed when the whole-day count until expiry — Python
timedelta.days, which floors — is at most REFRESH_TOKEN_BEFORE. now is
the current instant in microseconds. -/
def require_new_access_token (access_token : Option String)
    (status : TokenStatus) (now : Int) : Bool :=
  match access_token with
  | none => true
  | some t =>
    if t == "" then true
    else
      match status with
      | .err _ => true
      | .ok expires_at =>
        decide (Int.fdiv (expires_at - now) usecPerDay ≤ REFRESH_TOKEN_BEFORE)

/-- One page of a server's response as consumed by the pagination
loops: the record list extracted with result.body.get(body_key, [])
and the continuation cursor result.body.get(cursor), absent when the
response body has no cursor key. -/
structure Page where
  records : List String
  cursor : Option String
deriving DecidableEq

/-- The trace of one pagination run: the cursor field of the body of
each issued request (none when the body has no cursor key), the
yielded (records, next_cursor) pairs, and whether the loop exited
normally (as opposed to the supplied response sequence running out). -/
structure RunResult where
  reqs : List (Option String)
  yields : List (List String × Option String)
  ok : Bool
deriving DecidableEq

/-- Shallow embedding of the while loop of _get_v2_objects. cursor is
the loop variable, bodyCur the current cursor field of the request
body, and resps the successive server responses, consumed one per
issued request. The loop runs while the cursor is truthy; a cursor
different from the sentinel is written into the body before the
request; the next cursor is read from the response body. -/
def v2loop (cursor : Option String) (bodyCur : Option String) :
    List Page → RunResult
  | [] => if cursorTruthy cursor then ⟨[], [], false⟩ else ⟨[], [], true⟩
  | p :: rest =>
    if cursorTruthy cursor then
      let bodyCur' := if cursor == some "__initial__" then bodyCur else cursor
      let r := v2loop p.cursor bodyCur' rest
      ⟨bodyCur' :: r.reqs, (p.records, p.cursor) :: r.yields, r.ok⟩
    else ⟨[], [], true⟩

/-- Shallow embedding of _get_v2_objects: the initial loop cursor is
body.get. of the cursor key with the sentinel as default, and the body
starts with the given cursor field. -/
def get_v2_objects (body0 : Option String) (resps : List Page) : RunResult :=
  v2loop (some (body0.getD "__initial__")) body0 resps

/-- The cursor field the v2 stream extractors place in the request
body: every call site guards with if bookmarked_cursor, so the key is
set exactly when the bookmark is truthy. -/
def bodyCursorFromBookmark (bc : Option String) : Option String :=
  match bc with
  | none => none
  | some c => if c == "" then none else some c

/-- A v2 pagination run as started by the stream extractors that take
an optional resume bookmark (inventories, shifts, loyalty accounts,
refunds). -/
def v2CallerRun (bc : Option String) (resps : List Page) : RunResult :=
  get_v2_objects (bodyCursorFromBookmark bc) resps

/-- One request issued by get_payments, get_cash_drawer_shifts or
get_payouts: the keyword arguments of the list call. -/
structure PayReq where
  location_id : String
  begin_time : String
  end_time : String
  cursor : Option String
  limit : Nat
deriving DecidableEq

/-- The trace of one fixed-window run: issued requests, yielded
(records, next_cursor) pairs, and whether the loop exited normally
within the supplied fuel. -/
structure PayRun where
  reqs : List PayReq
  yields : List (List String × Option String)
  ok : Bool

/-- Shallow embedding of the while loop shared verbatim by
get_payments, get_cash_drawer_shifts and get_payouts. srv is the
server: the response to a request, assumed a function of the request.
Page records stand for result.body.get(body_key, []) with the
endpoint's body key. When the loop variable equals the sentinel it is
replaced by the (possibly falsy) bookmarked cursor before the request
is issued. fuel bounds the number of iterations modelled. -/
def fixedWindowLoop (srv : PayReq → Page) (loc start endT : String)
    (lim : Nat) (bookmarked : Option String) :
    Nat → Option String → PayRun
  | 0, cursor => if cursorTruthy cursor then ⟨[], [], false⟩ else ⟨[], [], true⟩
  | fuel + 1, cursor =>
    if cursorTruthy cursor then
      let c := if cursor == some "__initial__" then bookmarked else cursor
      let req : PayReq := ⟨loc, start, endT, c, lim⟩
      let p := srv req
      let r := fixedWindowLoop srv loc start endT lim bookmarked fuel p.cursor
      ⟨req :: r.reqs, (p.records, p.cursor) :: r.yields, r.ok⟩
    else ⟨[], [], true⟩

/-- The initial loop cursor of the fixed-window extractors: the
bookmark when truthy, the sentinel otherwise (so the loop is entered
exactly once even without a bookmark). -/
def initialCursor (bookmarked : Option String) : Option String :=
  if cursorTruthy bookmarked then bookmarked else some "__initial__"

/-- Shallow embedding of get_payments. clock n is the formatted value
utils.strftime(utils.now(), DATETIME_PARSE) would return at the n-th
clock reading of the run; the code reads the clock once, before the
loop, to fix end_time. -/
def get_payments (srv : PayReq → Page) (loc start : String)
    (bookmarked : Option String) (clock : Nat → String) (fuel : Nat) : PayRun :=
  let endT := clock 0
  fixedWindowLoop srv loc start endT 100 bookmarked fuel (initialCursor bookmarked)

/-- Shallow embedding of get_cash_drawer_shifts (limit 1000, records
read from the items key of the body). -/
def get_cash_drawer_shifts (srv : PayReq → Page) (loc start : String)
    (bookmarked : Option String) (clock : Nat → String) (fuel : Nat) : PayRun :=
  let endT := clock 0
  fixedWindowLoop srv loc start endT 1000 bookmarked fuel (initialCursor bookmarked)

/-- Shallow embedding of get_payouts (limit 100). -/
def get_payouts (srv : PayReq → Page) (loc start : String)
    (bookmarked : Option String) (clock : Nat → String) (fuel : Nat) : PayRun :=
  let endT := clock 0
  fixedWindowLoop srv loc start endT 100 bookmarked fuel (initialCursor bookmarked)

/-- A Python dict of configuration values, as a mapping from keys to
optional values. -/
def Config : Type := String → Option String

/-- Python dict.update(data): every key of data now maps to its value
from data, every other key is unchanged. -/
def dictUpdate (c : Config) (data : List (String × String)) : Config :=
  fun k => match data.lookup k with
  | some v => some v
  | none => c k

/-- The in-memory config dict together with the last content written
to the config file (none when the file was never written by this
run). -/
structure ConfigStore where
  mem : Config
  file : Option Config

/-- Shallow embedding of write_config: update the caller's config
mapping with data, overwrite the config file with the full updated
mapping, and hand the updated mapping back. -/
def write_config (st : ConfigStore) (data : List (String × String)) :
    ConfigStore × Config :=
  let c := dictUpdate st.mem data
  (⟨c, some c⟩, c)

/-- Shallow embedding of _get_access_token. The network is abstracted:
status and now feed the require_new_access_token check, and obtain is
the outcome of the obtain_token call (access token and refresh token
on success, the provider error payload on failure). The returned pair
is the final store state and either the access token the method
returns or the RuntimeError payload it raises. -/
def get_access_token (st : ConfigStore) (status : TokenStatus) (now : Int)
    (obtain : Except (List String) (String × String)) :
    ConfigStore × Except (List String) (Option String) :=
  if require_new_access_token (st.mem "access_token") status now then
    match obtain with
    | .error e => (st, .error e)
    | .ok (tok, refresh) =>
      let (st', _) := write_config st
        [("access_token", tok), ("refresh_token", refresh)]
      (st', .ok (some tok))
  else (st, .ok (st.mem "access_token"))

/-- A heap of Python dict objects addressed by reference, to express
aliasing: distinct references denote distinct dict objects. -/
def Heap : Type := Nat → Config

/-- Shallow embedding of write_config at the object level: the dict at
reference r is updated in place (no new object is allocated) and the
very same reference is returned. -/
def write_config_heap (h : Heap) (r : Nat) (data : List (String × String)) :
    Heap × Nat :=
  (fun r' => if r' = r then dictUpdate (h r) data else h r', r)

/-- Shallow embedding of _get_access_token at the object level: the
caller's config dict (at reference r) is passed through to
write_config on a successful refresh. Returns the heap after the call
and the result. -/
def get_access_token_heap (h : Heap) (r : Nat) (status : TokenStatus)
    (now : Int) (obtain : Except (List String) (String × String)) :
    Heap × Except (List String) (Option String) :=
  if require_new_access_token (h r "access_token") status now then
    match obtain with
    | .error e => (h, .error e)
    | .ok (tok, refresh) =>
      let (h', _) := write_config_heap h r
        [("access_token", tok), ("refresh_token", refresh)]
      (h', .ok (some tok))
  else (h, .ok (h r "access_token"))

/-- Gregorian leap-year test, as Python's calendar uses it. -/
def isLeap (y : Nat) : Bool :=
  (y % 4 == 0 && y % 100 != 0) || y % 400 == 0

/-- Length of a month in year y (months numbered 1 to 12). -/
def daysInMonth (y : Nat) (m : Nat) : Nat :=
  match m with
  | 1 => 31
  | 2 => if isLeap y then 29 else 28
  | 3 => 31
  | 4 => 30
  | 5 => 31
  | 6 => 30
  | 7 => 31
  | 8 => 31
  | 9 => 30
  | 10 => 31
  | 11 => 30
  | 12 => 31
  | _ => 0

/-- Day number of a proleptic Gregorian date, counted from March 1 of
year 0, via the standard era decomposition (the algorithm underlying
Python's date ordinals, shifted by a constant epoch). -/
def rataDie (y m d : Nat) : Nat :=
  let ys := if m ≤ 2 then y - 1 else y
  let era := ys / 400
  let yoe := ys % 400
  let mp := if m ≤ 2 then m + 9 else m - 3
  let doy := (153 * mp + 2) / 5 + (d - 1)
  era * 146097 + (yoe * 365 + yoe / 4 - yoe / 100 + doy)

/-- A Python datetime value (UTC), at microsecond resolution. Python
restricts year to 1..9999. -/
structure PyDateTime where
  year : Nat
  month : Nat
  day : Nat
  hour : Nat
  minute : Nat
  second : Nat
  micro : Nat
deriving DecidableEq

/-- Validity of a Python datetime value. -/
def ValidDT (dt : PyDateTime) : Prop :=
  1 ≤ dt.year ∧ dt.year ≤ 9999 ∧ 1 ≤ dt.month ∧ dt.month ≤ 12 ∧
  1 ≤ dt.day ∧ dt.day ≤ daysInMonth dt.year dt.month ∧
  dt.hour ≤ 23 ∧ dt.minute ≤ 59 ∧ dt.second ≤ 59 ∧ dt.micro ≤ 999999

instance (dt : PyDateTime) : Decidable (ValidDT dt) := by
  unfold ValidDT; infer_instance

/-- The calendar date one day before the given date. -/
def prevDay (y m d : Nat) : Nat × Nat × Nat :=
  if 2 ≤ d then (y, m, d - 1)
  else if 2 ≤ m then (y, m - 1, daysInMonth y (m - 1))
  else (y - 1, 12, 31)

/-- Microseconds since the rataDie origin: the linearization under
which Python datetime arithmetic is exact. -/
def dtToMicros (dt : PyDateTime) : Nat :=
  rataDie dt.year dt.month dt.day * 86400000000 +
    ((dt.hour * 60 + dt.minute) * 60 + dt.second) * 1000000 + dt.micro

/-- Model of Python datetime minus timedelta(milliseconds=1): exact
calendar subtraction of 1000 microseconds, implemented as the borrow
chain through microseconds, seconds, minutes, hours and the date. -/
def sub1msDT (dt : PyDateTime) : PyDateTime :=
  if 1000 ≤ dt.micro then
    ⟨dt.year, dt.month, dt.day, dt.hour, dt.minute, dt.second, dt.micro - 1000⟩
  else
    let m' := dt.micro + 999000
    if 1 ≤ dt.second then
      ⟨dt.year, dt.month, dt.day, dt.hour, dt.minute, dt.second - 1, m'⟩
    else if 1 ≤ dt.minute then
      ⟨dt.year, dt.month, dt.day, dt.hour, dt.minute - 1, 59, m'⟩
    else if 1 ≤ dt.hour then
      ⟨dt.year, dt.month, dt.day, dt.hour - 1, 59, 59, m'⟩
    else
      let p := prevDay dt.year dt.month dt.day
      ⟨p.1, p.2.1, p.2.2, 23, 59, 59, m'⟩

/-- Parse a fixed-width run of ASCII digits as a number; none when any
character is not a digit or the width differs. -/
def digitsToNat? (cs : List Char) : Option Nat :=
  if cs.isEmpty then none
  else if cs.all (fun c => c.isDigit) then
    some (cs.foldl (fun n c => n * 10 + (c.toNat - 48)) 0)
  else none

/-- The microsecond value of a fraction field of 1 to 6 digits, padded
on the right to 6 digits as Python strptime does for its microsecond
directive. -/
def fracToMicros? (cs : List Char) : Option Nat :=
  if cs.length < 1 || 6 < cs.length then none
  else (digitsToNat? cs).map (fun n => n * 10 ^ (6 - cs.length))

/-- Model of singer.utils.strptime_to_utc restricted to the UTC ISO
8601 timestamps this tap exchanges: year-month-day, the letter T,
hour:minute:second, an optional fraction, and the Z suffix. -/
def strptime_to_utc (s : String) : Option PyDateTime :=
  match splitOnChar 'T' s.toList with
  | [datePart, timeZ] =>
    (match splitOnChar '-' datePart with
     | [ys, ms, ds] =>
       (match timeZ.reverse with
        | 'Z' :: revTime =>
          (match splitOnChar ':' revTime.reverse with
           | [hs, mins, secFrac] =>
             (match splitOnChar '.' secFrac with
              | [ss] =>
                (match digitsToNat? ys, digitsToNat? ms, digitsToNat? ds,
                       digitsToNat? hs, digitsToNat? mins, digitsToNat? ss with
                 | some y, some mo, some d, some h, some mi, some sec =>
                   some ⟨y, mo, d, h, mi, sec, 0⟩
                 | _, _, _, _, _, _ => none)
              | [ss, fs] =>
                (match digitsToNat? ys, digitsToNat? ms, digitsToNat? ds,
                       digitsToNat? hs, digitsToNat? mins, digitsToNat? ss,
                       fracToMicros? fs with
                 | some y, some mo, some d, some h, some mi, some sec, some mic =>
                   some ⟨y, mo, d, h, mi, sec, mic⟩
                 | _, _, _, _, _, _, _ => none)
              | _ => none)
           | _ => none)
        | _ => none)
     | _ => none)
  | _ => none

/-- A decimal digit character. -/
def digCh (n : Nat) : Char := Char.ofNat (48 + n % 10)

/-- Two-digit zero-padded decimal field. -/
def pad2 (n : Nat) : List Char := [digCh (n / 10), digCh n]

/-- Four-digit zero-padded decimal field. -/
def pad4 (n : Nat) : List Char :=
  [digCh (n / 1000), digCh (n / 100), digCh (n / 10), digCh n]

/-- Six-digit zero-padded decimal field. -/
def pad6 (n : Nat) : List Char :=
  [digCh (n / 100000), digCh (n / 10000), digCh (n / 1000),
   digCh (n / 100), digCh (n / 10), digCh n]

/-- Model of singer.utils.strftime with its default format: four-digit
year, zero-padded date and time fields, a six-digit microsecond
fraction, and the Z suffix. -/
def singerStrftime (dt : PyDateTime) : String :=
  String.mk (pad4 dt.year ++ '-' :: pad2 dt.month ++ '-' :: pad2 dt.day ++
    'T' :: pad2 dt.hour ++ ':' :: pad2 dt.minute ++ ':' :: pad2 dt.second ++
    '.' :: pad6 dt.micro ++ ['Z'])

/-- The begin_time string get_catalog and get_refunds compute from the
supplied start time: parse, subtract one millisecond, format. -/
def adjustedBeginTime (start_time : String) : Option String :=
  (strptime_to_utc start_time).map (fun dt => singerStrftime (sub1msDT dt))

/-- The request body built by get_catalog. -/
structure CatalogBody where
  object_types : List String
  include_deleted_objects : Bool
  begin_time : String
deriving DecidableEq

/-- Shallow embedding of the body construction of get_catalog; none
when the start time fails to parse (the Python call would raise). -/
def get_catalog_body (object_type : String) (start_time : String) :
    Option CatalogBody :=
  (adjustedBeginTime start_time).map (fun b => ⟨[object_type], true, b⟩)

/-- The request body built by get_refunds. -/
structure RefundsBody where
  begin_time : String
  cursor : Option String
deriving DecidableEq

/-- Shallow embedding of the body construction of get_refunds: the
same one-millisecond adjustment, plus the optional bookmark cursor. -/
def get_refunds_body (start_time : String) (bookmarked_cursor : Option String) :
    Option RefundsBody :=
  (adjustedBeginTime start_time).map
    (fun b => ⟨b, bodyCursorFromBookmark bookmarked_cursor⟩)

theorem rataDie_prevDay (y m d : Nat) (hy : 1 ≤ y) (hm1 : 1 ≤ m) (hm2 : m ≤ 12)
    (hd1 : 1 ≤ d) (hd2 : d ≤ daysInMonth y m) :
    rataDie (prevDay y m d).1 (prevDay y m d).2.1 (prevDay y m d).2.2 + 1 =
      rataDie y m d := by
  by_cases hd : 2 ≤ d
  · simp only [prevDay, if_pos hd, rataDie]
    by_cases h2 : m ≤ 2 <;> simp only [if_pos, if_neg, h2] <;> omega
  · have hd1' : d = 1 := by omega
    subst hd1'
    simp only [prevDay, if_neg hd]
    interval_cases m
    · norm_num [rataDie]
      omega
    · norm_num [rataDie, daysInMonth]
      omega
    · norm_num [rataDie, daysInMonth, isLeap]
      rcases eq_or_ne (y % 4) 0 with h4 | h4 <;>
        rcases eq_or_ne (y % 100) 0 with h100 | h100 <;>
          rcases eq_or_ne (y % 400) 0 with h400 | h400 <;>
            simp [h4, h100, h400] <;> omega
    · norm_num [rataDie, daysInMonth]; omega
    · norm_num [rataDie, daysInMonth]; omega
    · norm_num [rataDie, daysInMonth]; omega
    · norm_num [rataDie, daysInMonth]; omega
    · norm_num [rataDie, daysInMonth]; omega
    · norm_num [rataDie, daysInMonth]; omega
    · norm_num [rataDie, daysInMonth]; omega
    · norm_num [rataDie, daysInMonth]; omega
    · norm_num [rataDie, daysInMonth]; omega

theorem dtToMicros_sub1ms (dt : PyDateTime) (h : ValidDT dt) :
    dtToMicros (sub1msDT dt) + 1000 = dtToMicros dt := by
  obtain ⟨h1, h2, h3, h4, h5, h6, h7, h8, h9, h10⟩ := h
  unfold sub1msDT dtToMicros
  by_cases hmic : 1000 ≤ dt.micro
  · simp only [if_pos hmic]
    omega
  · simp only [if_neg hmic]
    by_cases hs : 1 ≤ dt.second
    · simp only [if_pos hs]
      omega
    · simp only [if_neg hs]
      by_cases hmin : 1 ≤ dt.minute
      · simp only [if_pos hmin]
        omega
      · simp only [if_neg hmin]
        by_cases hh : 1 ≤ dt.hour
        · simp only [if_pos hh]
          omega
        · simp only [if_neg hh]
          have hprev := rataDie_prevDay dt.year dt.month dt.day h1 h3 h4 h5 h6
          omega

theorem v2loop_falsy (cursor b : Option String) (resps : List Page)
    (h : cursorTruthy cursor = false) : v2loop cursor b resps = ⟨[], [], true⟩ := by
  cases resps <;> simp [v2loop, h]

theorem v2loop_len (resps : List Page) : ∀ cursor b : Option String,
    (v2loop cursor b resps).reqs.length = (v2loop cursor b resps).yields.length := by
  induction resps with
  | nil => intro cursor b; by_cases h : cursorTruthy cursor <;> simp [v2loop, h]
  | cons p rest ih =>
    intro cursor b
    by_cases h : cursorTruthy cursor <;> simp [v2loop, h, ih]

theorem v2loop_yields_take (resps : List Page) : ∀ cursor b : Option String,
    (v2loop cursor b resps).yields =
      (resps.take (v2loop cursor b resps).yields.length).map
        (fun p => (p.records, p.cursor)) := by
  induction resps with
  | nil => intro cursor b; by_cases h : cursorTruthy cursor <;> simp [v2loop, h]
  | cons p rest ih =>
    intro cursor b
    by_cases h : cursorTruthy cursor <;> simp [v2loop, h]
    rw [← List.map_take]
    exact ih _ _

theorem v2loop_no_sentinel (resps : List Page) : ∀ cursor b : Option String,
    b ≠ some "__initial__" →
    some "__initial__" ∉ (v2loop cursor b resps).reqs := by
  induction resps with
  | nil =>
    intro cursor b hb
    by_cases h : cursorTruthy cursor <;> simp [v2loop, h]
  | cons p rest ih =>
    intro cursor b hb
    by_cases h : cursorTruthy cursor <;> simp only [v2loop, h, if_pos, if_neg]
    · by_cases hc : cursor == some "__initial__"
      · simp only [hc, if_pos]
        intro hmem
        rcases List.mem_cons.mp hmem with h1 | h1
        · exact hb h1.symm
        · exact ih _ _ hb h1
      · simp only [hc]
        have hcur : cursor ≠ some "__initial__" := by
          intro he; rw [he] at hc; simp at hc
        simp only [Bool.false_eq_true, if_neg]
        intro hmem
        rcases List.mem_cons.mp hmem with h1 | h1
        · exact hcur h1.symm
        · exact ih _ _ hcur h1
    · simp

theorem v2loop_count (resps : List Page) : ∀ cursor b : Option String,
    cursorTruthy cursor = true → (v2loop cursor b resps).ok = true →
    (v2loop cursor b resps).reqs.length =
      1 + ((v2loop cursor b resps).yields.map Prod.snd).countP
            (fun c => cursorTruthy c) := by
  induction resps with
  | nil =>
    intro cursor b hcur hok
    simp [v2loop, hcur] at hok
  | cons p rest ih =>
    intro cursor b hcur hok
    by_cases hc : cursor == some "__initial__" <;>
      simp only [v2loop, hcur, hc, if_pos, if_neg, Bool.false_eq_true] at hok ⊢ <;>
    · by_cases hnext : cursorTruthy p.cursor
      · simp only [List.length_cons, List.map_cons, List.countP_cons, hnext, if_pos]
        rw [ih _ _ hnext hok]
        omega
      · rw [v2loop_falsy _ _ _ (by simpa using hnext)] at hok ⊢
        simp [hnext]

theorem v2loop_last_falsy (resps : List Page) : ∀ (cursor b : Option String)
    (i : Nat) (y : List String × Option String),
    (v2loop cursor b resps).yields.get? i = some y →
    cursorTruthy y.2 = false →
    (v2loop cursor b resps).yields.length = i + 1 := by
  induction resps with
  | nil =>
    intro cursor b i y hget _
    by_cases h : cursorTruthy cursor <;> simp [v2loop, h] at hget
  | cons p rest ih =>
    intro cursor b i y hget hfalsy
    by_cases h : cursorTruthy cursor
    · by_cases hc : cursor == some "__initial__" <;>
        simp only [v2loop, h, hc, if_pos, if_neg, Bool.false_eq_true,
          if_true, if_false] at hget ⊢ <;>
      match i with
      | 0 =>
        simp only [List.get?_cons_zero, Option.some_inj] at hget
        subst hget
        rw [v2loop_falsy _ _ _ (by simpa using hfalsy)]
        simp
      | i + 1 =>
        simp only [List.get?_cons_succ] at hget
        simp [ih _ _ i y hget hfalsy]
    · simp [v2loop_falsy _ _ _ (by simpa using h)] at hget

theorem fixedWindowLoop_falsy (srv : PayReq → Page) (loc start endT : String)
    (lim : Nat) (b : Option String) (fuel : Nat) (cursor : Option String)
    (h : cursorTruthy cursor = false) :
    fixedWindowLoop srv loc start endT lim b fuel cursor = ⟨[], [], true⟩ := by
  cases fuel <;> simp [fixedWindowLoop, h]

theorem fixedWindowLoop_endTime (srv : PayReq → Page) (loc start endT : String)
    (lim : Nat) (b : Option String) : ∀ (fuel : Nat) (cursor : Option String),
    ∀ q ∈ (fixedWindowLoop srv loc start endT lim b fuel cursor).reqs,
      q.end_time = endT ∧ q.begin_time = start ∧ q.location_id = loc ∧
        q.limit = lim := by
  intro fuel
  induction fuel with
  | zero =>
    intro cursor q hq
    by_cases h : cursorTruthy cursor <;> simp [fixedWindowLoop, h] at hq
  | succ f ih =>
    intro cursor q hq
    by_cases h : cursorTruthy cursor
    · simp only [fixedWindowLoop, h, if_pos] at hq
      rcases List.mem_cons.mp hq with h1 | h1
      · subst h1; exact ⟨rfl, rfl, rfl, rfl⟩
      · exact ih _ q h1
    · simp [fixedWindowLoop, h] at hq

theorem fixedWindowLoop_mono (srv : PayReq → Page) (loc start endT : String)
    (lim : Nat) (b : Option String) : ∀ (fuel : Nat) (cursor : Option String),
    (fixedWindowLoop srv loc start endT lim b fuel cursor).ok = true →
    ∀ k : Nat, fixedWindowLoop srv loc start endT lim b (fuel + k) cursor =
      fixedWindowLoop srv loc start endT lim b fuel cursor := by
  intro fuel
  induction fuel with
  | zero =>
    intro cursor hok k
    have h : cursorTruthy cursor = false := by
      by_contra hcur
      simp only [fixedWindowLoop, Bool.not_eq_false] at hok hcur
      rw [if_pos hcur] at hok
      simp at hok
    rw [fixedWindowLoop_falsy _ _ _ _ _ _ _ _ h,
      fixedWindowLoop_falsy _ _ _ _ _ _ _ _ h]
  | succ f ih =>
    intro cursor hok k
    by_cases h : cursorTruthy cursor
    · have harith : f + 1 + k = (f + k) + 1 := by omega
      rw [harith]
      simp only [fixedWindowLoop, h, if_pos] at hok ⊢
      rw [ih _ hok k]
    · rw [fixedWindowLoop_falsy _ _ _ _ _ _ _ _ (by simpa using h),
        fixedWindowLoop_falsy _ _ _ _ _ _ _ _ (by simpa using h)]

theorem fixedWindowLoop_paramsIrrel (srv : PayReq → Page) (loc : String)
    (lim : Nat)
    (hdet : ∀ r r' : PayReq, r.cursor = r'.cursor → srv r = srv r')
    (hns : ∀ r : PayReq, (srv r).cursor ≠ some "__initial__")
    (start endT start' endT' : String) (b b' : Option String) :
    ∀ (fuel : Nat) (cursor : Option String), cursor ≠ some "__initial__" →
    (fixedWindowLoop srv loc start endT lim b fuel cursor).yields =
      (fixedWindowLoop srv loc start' endT' lim b' fuel cursor).yields ∧
    (fixedWindowLoop srv loc start endT lim b fuel cursor).ok =
      (fixedWindowLoop srv loc start' endT' lim b' fuel cursor).ok := by
  intro fuel
  induction fuel with
  | zero =>
    intro cursor hcur
    simp [fixedWindowLoop]
  | succ f ih =>
    intro cursor hcur
    by_cases h : cursorTruthy cursor
    · have hbeq : (cursor == some "__initial__") = false := by
        simpa using hcur
      simp only [fixedWindowLoop, h, hbeq, if_pos, if_false, Bool.false_eq_true]
      have hsrv : srv ⟨loc, start, endT, cursor, lim⟩ =
          srv ⟨loc, start', endT', cursor, lim⟩ := hdet _ _ rfl
      rw [hsrv]
      have hnext := hns ⟨loc, start', endT', cursor, lim⟩
      obtain ⟨hy, ho⟩ := ih (srv ⟨loc, start', endT', cursor, lim⟩).cursor hnext
      exact ⟨by rw [hy], by rw [ho]⟩
    · rw [fixedWindowLoop_falsy _ _ _ _ _ _ _ _ (by simpa using h),
        fixedWindowLoop_falsy _ _ _ _ _ _ _ _ (by simpa using h)]
      exact ⟨rfl, rfl⟩

theorem fixedWindowLoop_reqsTruthy (srv : PayReq → Page)
    (loc start endT : String) (lim : Nat) (b : Option String)
    (hns : ∀ r : PayReq, (srv r).cursor ≠ some "__initial__") :
    ∀ (fuel : Nat) (cursor : Option String), cursorTruthy cursor = true →
    cursor ≠ some "__initial__" →
    ∀ q ∈ (fixedWindowLoop srv loc start endT lim b fuel cursor).reqs,
      cursorTruthy q.cursor = true := by
  intro fuel
  induction fuel with
  | zero =>
    intro cursor hcur hsent q hq
    simp [fixedWindowLoop, hcur] at hq
  | succ f ih =>
    intro cursor hcur hsent q hq
    have hbeq : (cursor == some "__initial__") = false := by simpa using hsent
    simp only [fixedWindowLoop, hcur, hbeq, if_pos, if_false,
      Bool.false_eq_true] at hq
    rcases List.mem_cons.mp hq with h1 | h1
    · subst h1; exact hcur
    · by_cases hnext : cursorTruthy (srv ⟨loc, start, endT, cursor, lim⟩).cursor
      · exact ih _ hnext (hns _) q h1
      · rw [fixedWindowLoop_falsy _ _ _ _ _ _ _ _ (by simpa using hnext)] at h1
        simp at h1

theorem fixedWindowLoop_step (srv : PayReq → Page) (loc start endT : String)
    (lim : Nat) (b : Option String) (f : Nat) (cursor : Option String)
    (h : cursorTruthy cursor = true) :
    fixedWindowLoop srv loc start endT lim b (f + 1) cursor =
      ⟨⟨loc, start, endT,
          (if cursor == some "__initial__" then b else cursor), lim⟩ ::
        (fixedWindowLoop srv loc start endT lim b f
          (srv ⟨loc, start, endT,
            (if cursor == some "__initial__" then b else cursor), lim⟩).cursor).reqs,
       ((srv ⟨loc, start, endT,
            (if cursor == some "__initial__" then b else cursor), lim⟩).records,
        (srv ⟨loc, start, endT,
            (if cursor == some "__initial__" then b else cursor), lim⟩).cursor) ::
        (fixedWindowLoop srv loc start endT lim b f
          (srv ⟨loc, start, endT,
            (if cursor == some "__initial__" then b else cursor), lim⟩).cursor).yields,
       (fixedWindowLoop srv loc start endT lim b f
          (srv ⟨loc, start, endT,
            (if cursor == some "__initial__" then b else cursor), lim⟩).cursor).ok⟩ := by
  simp only [fixedWindowLoop, h, if_pos]

theorem fixedWindowLoop_suffix (srv : PayReq → Page) (loc start endT : String)
    (lim : Nat) (b : Option String)
    (hns : ∀ r : PayReq, (srv r).cursor ≠ some "__initial__") :
    ∀ (fuel : Nat) (cursor : Option String) (i : Nat)
      (y : List String × Option String),
    (fixedWindowLoop srv loc start endT lim b fuel cursor).ok = true →
    (fixedWindowLoop srv loc start endT lim b fuel cursor).yields.get? i =
      some y →
    cursorTruthy y.2 = true →
    (fixedWindowLoop srv loc start endT lim b fuel y.2).yields =
      (fixedWindowLoop srv loc start endT lim b fuel cursor).yields.drop (i + 1) ∧
    (fixedWindowLoop srv loc start endT lim b fuel y.2).ok = true ∧
    y.2 ≠ some "__initial__" := by
  intro fuel
  induction fuel with
  | zero =>
    intro cursor i y hok hget hy
    by_cases h : cursorTruthy cursor <;> simp [fixedWindowLoop, h] at hok hget
  | succ f ih =>
    intro cursor i y hok hget hy
    by_cases h : cursorTruthy cursor
    · rw [fixedWindowLoop_step srv loc start endT lim b f cursor h] at hok hget ⊢
      set q : PayReq :=
        ⟨loc, start, endT,
          (if cursor == some "__initial__" then b else cursor), lim⟩ with hq
      dsimp only at hok hget ⊢
      match i with
      | 0 =>
        rw [List.get?_cons_zero, Option.some_inj] at hget
        have h2 : y.2 = (srv q).cursor := by rw [← hget]
        have hok' : (fixedWindowLoop srv loc start endT lim b f y.2).ok = true := by
          rw [h2]; exact hok
        have hcast := fixedWindowLoop_mono srv loc start endT lim b f y.2 hok' 1
        refine ⟨?_, ?_, ?_⟩
        · rw [hcast, h2, List.drop_succ_cons, List.drop_zero]
        · rw [hcast]; exact hok'
        · rw [h2]; exact hns _
      | i + 1 =>
        rw [List.get?_cons_succ] at hget
        obtain ⟨h1, h2, h3⟩ := ih (srv q).cursor i y hok hget hy
        have hcast := fixedWindowLoop_mono srv loc start endT lim b f y.2 h2 1
        refine ⟨?_, by rw [hcast]; exact h2, h3⟩
        rw [hcast, h1, List.drop_succ_cons]
    · rw [fixedWindowLoop_falsy _ _ _ _ _ _ _ _ (by simpa using h)] at hget
      simp at hget

instance {α β : Type} [DecidableEq α] [DecidableEq β] :
    DecidableEq (Except α β) := fun a b =>
  match a, b with
  | .ok x, .ok y =>
    if h : x = y then isTrue (by rw [h])
    else isFalse (by intro he; cases he; exact h rfl)
  | .error x, .error y =>
    if h : x = y then isTrue (by rw [h])
    else isFalse (by intro he; cases he; exact h rfl)
  | .ok _, .error _ => isFalse (fun he => Except.noConfusion he)
  | .error _, .ok _ => isFalse (fun he => Except.noConfusion he)

/-- Claim C1: the claim states that both retry-wrapped request methods
fail immediately on HTTP 400/401 even when the payload matches a
retryable pattern. The code violates this for _retryable_v2_method: a
400 response whose payload matches a retryable pattern raises
RetryableError, which carries no response attribute, so the giveup
predicate should_not_retry never sees the status and the call is
retried. The conjuncts record: the v2 method retries a 400 response
with a matching payload; should_not_retry itself would have stopped an
exception that carried status 400; and the v1 method, whose HTTPError
does carry the response, gives up immediately on 400 and 401. -/
theorem c1_v2_400_with_retryable_payload_is_retried :
    v2WillRetry ⟨true, 400, [], .str "Service Unavailable"⟩ = true ∧
    v2WillRetry ⟨true, 401, [], .str "Service Unavailable"⟩ = true ∧
    should_not_retry ⟨some 400⟩ = true ∧
    v1WillRetry 400 = false ∧
    v1WillRetry 401 = false := by
  refine ⟨rfl, rfl, rfl, rfl, rfl⟩

/-- Counterexample to claim C2 as stated: a link header whose first
URL has no batch_token query parameter does not make
get_batch_token_from_headers return none; the plain dictionary
subscript raises KeyError instead. -/
theorem c2_counterexample :
    get_batch_token_from_headers
      [("link",
        "<https://connect.squareup.com/v1/me/payments?limit=200>;rel=\"next\"")] ≠
      Except.ok none := by
  decide

/-- Claim C2 (amended): a link header whose first URL carries
batch_token=abc123 yields abc123; headers without a link entry yield
none; but a link header whose first URL has no batch_token parameter
raises KeyError rather than returning none. -/
theorem c2_theorem (headers : List (String × String))
    (hnolink : headers.lookup "link" = none) :
    get_batch_token_from_headers headers = .ok none ∧
    get_batch_token_from_headers
      [("link",
        "<https://connect.squareup.com/v1/me/payments?batch_token=abc123&limit=200>;rel=\"next\"")] =
      .ok (some "abc123") ∧
    get_batch_token_from_headers
      [("link",
        "<https://connect.squareup.com/v1/me/payments?limit=200>;rel=\"next\"")] =
      .error "KeyError: batch_token" := by
  refine ⟨?_, rfl, rfl⟩
  simp [get_batch_token_from_headers, hnolink]

theorem c2_witness :
    ([("content-type", "application/json")] :
        List (String × String)).lookup "link" = none ∧
    get_batch_token_from_headers [("content-type", "application/json")] =
      .ok none :=
  ⟨by decide, (c2_theorem [("content-type", "application/json")] (by decide)).1⟩

/-- Claim C5: require_new_access_token returns true for an absent or
empty access token, true when the token-status query errors, true
exactly when the whole-day count until expiry is at most 22 (so expiry
exactly 22 days out is refreshed, boundary inclusive), and false
otherwise, for instance at expiry 30 days out. -/
theorem c5_theorem (t : String) (ht : t ≠ "") (status : TokenStatus)
    (e : List String) (now expires_at : Int) :
    require_new_access_token none status now = true ∧
    require_new_access_token (some "") status now = true ∧
    require_new_access_token (some t) (.err e) now = true ∧
    (require_new_access_token (some t) (.ok expires_at) now = true ↔
      Int.fdiv (expires_at - now) usecPerDay ≤ 22) ∧
    (expires_at - now = 22 * usecPerDay →
      require_new_access_token (some t) (.ok expires_at) now = true) ∧
    (expires_at - now = 30 * usecPerDay →
      require_new_access_token (some t) (.ok expires_at) now = false) := by
  have htb : (t == "") = false := by simpa using ht
  refine ⟨rfl, rfl, by simp [require_new_access_token, htb], ?_, ?_, ?_⟩
  · simp [require_new_access_token, htb, REFRESH_TOKEN_BEFORE]
  · intro hdiff
    simp [require_new_access_token, htb, hdiff, REFRESH_TOKEN_BEFORE, usecPerDay]
  · intro hdiff
    simp [require_new_access_token, htb, hdiff, REFRESH_TOKEN_BEFORE, usecPerDay]

theorem c5_witness :
    ("token" : String) ≠ "" ∧
    (require_new_access_token none (.ok 0) 0 = true ∧
      require_new_access_token (some "") (.ok 0) 0 = true ∧
      require_new_access_token (some "token") (.err ["boom"]) 0 = true ∧
      (require_new_access_token (some "token") (.ok (22 * usecPerDay)) 0 = true ↔
        Int.fdiv (22 * usecPerDay - 0) usecPerDay ≤ 22) ∧
      (22 * usecPerDay - 0 = 22 * usecPerDay →
        require_new_access_token (some "token") (.ok (22 * usecPerDay)) 0 = true) ∧
      (22 * usecPerDay - 0 = 30 * usecPerDay →
        require_new_access_token (some "token") (.ok (22 * usecPerDay)) 0 = false)) :=
  ⟨by decide, c5_theorem "token" (by decide) (.ok 0) ["boom"] 0 (22 * usecPerDay)⟩

/-- Claim C6: an error response of a v2 call raises the retryable
exception and is retried exactly when its payload contains Service
Unavailable, or the upstream-connect signature, or the Cloudflare
error-code marker, or is a string starting with the HTML doctype, or
the status is 429 or at least 500 (so a 503 with an unrelated message
is retried via the status rule); every other error raises fatally with
no retry. -/
theorem c6_theorem (r : ApiResponse) (he : r.is_error = true) :
    ((v2Attempt r = .retryable (errorMessage r) ∧ v2WillRetry r = true) ↔
      (pyContains "Service Unavailable" (errorMessage r) = true ∨
       pyContains "upstream connect error or disconnect/reset before headers"
         (errorMessage r) = true ∨
       pyContains "<span class=\"cf-error-code\">1101</span>"
         (errorMessage r) = true ∨
       pyStartsHtml (errorMessage r) = true ∨
       r.status_code = 429 ∨ 500 ≤ r.status_code)) ∧
    (v2Retryable r = false →
      v2Attempt r = .fatal (errorMessage r) ∧ v2WillRetry r = false) ∧
    (∀ (errs : List String) (body : PyVal),
      v2WillRetry ⟨true, 503, errs, body⟩ = true) := by
  have hcond : v2Retryable r = true ↔
      (pyContains "Service Unavailable" (errorMessage r) = true ∨
       pyContains "upstream connect error or disconnect/reset before headers"
         (errorMessage r) = true ∨
       pyContains "<span class=\"cf-error-code\">1101</span>"
         (errorMessage r) = true ∨
       pyStartsHtml (errorMessage r) = true ∨
       r.status_code = 429 ∨ 500 ≤ r.status_code) := by
    simp only [v2Retryable, Bool.or_eq_true, beq_iff_eq, decide_eq_true_eq,
      or_assoc]
  refine ⟨?_, ?_, ?_⟩
  · rw [← hcond]
    constructor
    · rintro ⟨h1, _⟩
      by_contra hne
      have hfalse : v2Retryable r = false := by
        revert hne
        cases v2Retryable r <;> simp
      rw [v2Attempt, if_pos he, if_neg (by rw [hfalse]; exact Bool.false_ne_true)]
        at h1
      exact V2Outcome.noConfusion h1
    · intro hr
      have ha : v2Attempt r = .retryable (errorMessage r) := by
        rw [v2Attempt, if_pos he, if_pos hr]
      exact ⟨ha, by rw [v2WillRetry, ha]; rfl⟩
  · intro hfalse
    have ha : v2Attempt r = .fatal (errorMessage r) := by
      rw [v2Attempt, if_pos he, if_neg (by rw [hfalse]; exact Bool.false_ne_true)]
    exact ⟨ha, by rw [v2WillRetry, ha]⟩
  · intro errs body
    have h503 : v2Retryable ⟨true, 503, errs, body⟩ = true := by
      simp [v2Retryable]
    have ha : v2Attempt ⟨true, 503, errs, body⟩ =
        .retryable (errorMessage ⟨true, 503, errs, body⟩) := by
      rw [v2Attempt, if_pos rfl, if_pos h503]
    rw [v2WillRetry, ha]
    rfl

theorem c6_witness :
    (ApiResponse.mk true 503 [] (.str "boom")).is_error = true ∧
    (((v2Attempt ⟨true, 503, [], .str "boom"⟩ =
        .retryable (errorMessage ⟨true, 503, [], .str "boom"⟩) ∧
       v2WillRetry ⟨true, 503, [], .str "boom"⟩ = true) ↔
      (pyContains "Service Unavailable"
         (errorMessage ⟨true, 503, [], .str "boom"⟩) = true ∨
       pyContains "upstream connect error or disconnect/reset before headers"
         (errorMessage ⟨true, 503, [], .str "boom"⟩) = true ∨
       pyContains "<span class=\"cf-error-code\">1101</span>"
         (errorMessage ⟨true, 503, [], .str "boom"⟩) = true ∨
       pyStartsHtml (errorMessage ⟨true, 503, [], .str "boom"⟩) = true ∨
       (ApiResponse.mk true 503 [] (.str "boom")).status_code = 429 ∨
       500 ≤ (ApiResponse.mk true 503 [] (.str "boom")).status_code)) ∧
     (v2Retryable ⟨true, 503, [], .str "boom"⟩ = false →
       v2Attempt ⟨true, 503, [], .str "boom"⟩ =
         .fatal (errorMessage ⟨true, 503, [], .str "boom"⟩) ∧
       v2WillRetry ⟨true, 503, [], .str "boom"⟩ = false) ∧
     (∀ (errs : List String) (body : PyVal),
       v2WillRetry ⟨true, 503, errs, body⟩ = true)) :=
  ⟨rfl, c6_theorem ⟨true, 503, [], .str "boom"⟩ rfl⟩

theorem bodyCursorFromBookmark_ne_empty (bc : Option String) :
    bodyCursorFromBookmark bc ≠ some "" := by
  cases bc with
  | none => simp [bodyCursorFromBookmark]
  | some c =>
    by_cases h : c == ""
    · simp [bodyCursorFromBookmark, h]
    · simp [bodyCursorFromBookmark, h]
      simpa using h

theorem bodyCursorFromBookmark_ne_sentinel (bc : Option String)
    (h : bc ≠ some "__initial__") :
    bodyCursorFromBookmark bc ≠ some "__initial__" := by
  cases bc with
  | none => simp [bodyCursorFromBookmark]
  | some c =>
    by_cases hc : c == "" <;> simp [bodyCursorFromBookmark, hc]
    intro he
    exact h (by rw [he])

theorem v2_initial_cursor_truthy (b0 : Option String) (h : b0 ≠ some "") :
    cursorTruthy (some (b0.getD "__initial__")) = true := by
  cases b0 with
  | none => rfl
  | some c =>
    have : c ≠ "" := fun he => h (by rw [he])
    simpa [cursorTruthy] using this

/-- Claim C3: over any server cursor sequence (with no empty-string
cursors), the v2 paginator issues exactly one request per truthy
returned cursor plus one initial request, never transmits the sentinel
in the request body, yields at least one page when the caller supplies
no truthy bookmark, yields each consumed page exactly once and in
order, and terminates right after a page whose body lacks the cursor
key. -/
theorem c3_theorem (bc : Option String) (resps : List Page)
    (hbc : bc ≠ some "__initial__")
    (hresp : ∀ p ∈ resps, p.cursor ≠ some "") :
    (some "__initial__" ∉ (v2CallerRun bc resps).reqs) ∧
    ((v2CallerRun bc resps).ok = true →
      (v2CallerRun bc resps).reqs.length =
        1 + ((v2CallerRun bc resps).yields.map Prod.snd).countP
              (fun c => !(c == none))) ∧
    (cursorTruthy bc = false → resps ≠ [] →
      (v2CallerRun bc resps).yields ≠ []) ∧
    (∀ i recs, (v2CallerRun bc resps).yields.get? i = some (recs, none) →
      (v2CallerRun bc resps).yields.length = i + 1) ∧
    ((v2CallerRun bc resps).yields =
      (resps.take (v2CallerRun bc resps).yields.length).map
        (fun p => (p.records, p.cursor))) := by
  have hb0e := bodyCursorFromBookmark_ne_empty bc
  have hb0s := bodyCursorFromBookmark_ne_sentinel bc hbc
  have htr := v2_initial_cursor_truthy (bodyCursorFromBookmark bc) hb0e
  refine ⟨?_, ?_, ?_, ?_, ?_⟩
  · exact v2loop_no_sentinel resps _ _ hb0s
  · intro hok
    rw [v2CallerRun, get_v2_objects] at hok ⊢
    rw [v2loop_count resps _ _ htr hok]
    congr 1
    apply List.countP_congr
    intro a ha
    have hmem : a ∈ resps.map Page.cursor := by
      have := v2loop_yields_take resps
        (some ((bodyCursorFromBookmark bc).getD "__initial__"))
        (bodyCursorFromBookmark bc)
      rw [this] at ha
      rw [List.map_map] at ha
      rcases List.mem_map.mp ha with ⟨p, hp, hpa⟩
      exact List.mem_map.mpr ⟨p, List.take_subset _ _ hp, hpa⟩
    rcases List.mem_map.mp hmem with ⟨p, hp, hpa⟩
    have hpe := hresp p hp
    rw [← hpa]
    cases hc : p.cursor with
    | none => rfl
    | some s =>
      have hs : s ≠ "" := by
        intro he
        exact hpe (by rw [hc, he])
      simp [cursorTruthy, hs]
  · intro hfalsy hne
    have hb0 : bodyCursorFromBookmark bc = none := by
      cases bc with
      | none => rfl
      | some c =>
        have : (c == "") = true := by
          revert hfalsy
          simp [cursorTruthy]
        simp [bodyCursorFromBookmark, this]
    cases resps with
    | nil => exact absurd rfl hne
    | cons p rest =>
      rw [v2CallerRun, get_v2_objects, hb0]
      simp only [v2loop, Option.getD]
      intro hcontr
      simp [cursorTruthy] at hcontr
  · intro i recs hget
    exact v2loop_last_falsy resps _ _ i (recs, none) hget rfl
  · exact v2loop_yields_take resps _ _

theorem c3_witness :
    ((none : Option String) ≠ some "__initial__" ∧
      (∀ p ∈ [Page.mk ["a"] (some "c1"), Page.mk ["b"] none],
        p.cursor ≠ some "")) ∧
    ((some "__initial__" ∉
        (v2CallerRun none [Page.mk ["a"] (some "c1"), Page.mk ["b"] none]).reqs) ∧
     ((v2CallerRun none [Page.mk ["a"] (some "c1"), Page.mk ["b"] none]).ok =
        true →
       (v2CallerRun none
          [Page.mk ["a"] (some "c1"), Page.mk ["b"] none]).reqs.length =
         1 + ((v2CallerRun none
                [Page.mk ["a"] (some "c1"), Page.mk ["b"] none]).yields.map
                Prod.snd).countP (fun c => !(c == none))) ∧
     (cursorTruthy none = false →
       [Page.mk ["a"] (some "c1"), Page.mk ["b"] none] ≠ [] →
       (v2CallerRun none
          [Page.mk ["a"] (some "c1"), Page.mk ["b"] none]).yields ≠ []) ∧
     (∀ i recs,
       (v2CallerRun none
          [Page.mk ["a"] (some "c1"), Page.mk ["b"] none]).yields.get? i =
         some (recs, none) →
       (v2CallerRun none
          [Page.mk ["a"] (some "c1"), Page.mk ["b"] none]).yields.length =
         i + 1) ∧
     ((v2CallerRun none [Page.mk ["a"] (some "c1"), Page.mk ["b"] none]).yields =
       ([Page.mk ["a"] (some "c1"), Page.mk ["b"] none].take
          (v2CallerRun none
            [Page.mk ["a"] (some "c1"), Page.mk ["b"] none]).yields.length).map
         (fun p => (p.records, p.cursor)))) :=
  ⟨⟨by decide, by decide⟩,
    c3_theorem none [Page.mk ["a"] (some "c1"), Page.mk ["b"] none]
      (by decide) (by decide)⟩

/-- Claim C4: against a server whose response depends only on the
cursor sent (the responses-unchanged assumption) and which never
returns the sentinel as a cursor, resuming get_payments from the
cursor yielded with batch i reproduces exactly the batches an
uninterrupted run would have produced after that batch; the resumed
run issues no unparameterized initial call (every request carries a
truthy cursor) and its very first request carries the resumed
cursor. -/
theorem c4_theorem (srv : PayReq → Page)
    (hdet : ∀ r r' : PayReq, r.cursor = r'.cursor → srv r = srv r')
    (hns : ∀ r : PayReq, (srv r).cursor ≠ some "__initial__")
    (loc start start' : String) (clock clock' : Nat → String)
    (c : String) (hc1 : c ≠ "") (hc2 : c ≠ "__initial__") (fuel : Nat) :
    ((get_payments srv loc start' (some c) clock' (fuel + 1)).reqs.head? =
      some ⟨loc, start', clock' 0, some c, 100⟩) ∧
    (∀ q ∈ (get_payments srv loc start' (some c) clock' fuel).reqs,
      cursorTruthy q.cursor = true) ∧
    (∀ i recs,
      (get_payments srv loc start none clock fuel).ok = true →
      (get_payments srv loc start none clock fuel).yields.get? i =
        some (recs, some c) →
      (get_payments srv loc start' (some c) clock' fuel).yields =
        (get_payments srv loc start none clock fuel).yields.drop (i + 1) ∧
      (get_payments srv loc start' (some c) clock' fuel).ok = true) := by
  have hcur : cursorTruthy (some c) = true := by
    simpa [cursorTruthy] using hc1
  have hsent : (some c : Option String) ≠ some "__initial__" := by
    simpa using hc2
  have hinit : initialCursor (some c) = some c := by
    simp [initialCursor, hcur]
  refine ⟨?_, ?_, ?_⟩
  · simp only [get_payments, hinit]
    rw [fixedWindowLoop_step srv loc start' (clock' 0) 100 (some c) fuel
      (some c) hcur]
    have hbeq : ((some c : Option String) == some "__initial__") = false := by
      simpa using hc2
    simp [hbeq]
  · intro q hq
    simp only [get_payments, hinit] at hq
    exact fixedWindowLoop_reqsTruthy srv loc start' (clock' 0) 100 (some c)
      hns fuel (some c) hcur hsent q hq
  · intro i recs hok hget
    simp only [get_payments] at hok hget ⊢
    have hsuf := fixedWindowLoop_suffix srv loc start (clock 0) 100 none hns
      fuel (initialCursor none) i (recs, some c) hok hget hcur
    obtain ⟨h1, h2, _⟩ := hsuf
    have hirr := fixedWindowLoop_paramsIrrel srv loc 100 hdet hns
      start (clock 0) start' (clock' 0) none (some c) fuel (some c) hsent
    obtain ⟨hy, ho⟩ := hirr
    rw [hinit]
    constructor
    · rw [← hy, h1]
    · rw [← ho, h2]

theorem c4_witness :
    ((∀ r r' : PayReq, r.cursor = r'.cursor →
        (fun _ : PayReq => Page.mk ["row"] none) r =
          (fun _ : PayReq => Page.mk ["row"] none) r') ∧
     (∀ r : PayReq,
        ((fun _ : PayReq => Page.mk ["row"] none) r).cursor ≠
          some "__initial__") ∧
     ("xyz" : String) ≠ "" ∧ ("xyz" : String) ≠ "__initial__") ∧
    (((get_payments (fun _ => Page.mk ["row"] none) "L1" "2023-01-01T00:00:00Z"
        (some "xyz") (fun _ => "2024-01-01T00:00:00Z") (3 + 1)).reqs.head? =
      some ⟨"L1", "2023-01-01T00:00:00Z", "2024-01-01T00:00:00Z",
        some "xyz", 100⟩) ∧
    (∀ q ∈ (get_payments (fun _ => Page.mk ["row"] none) "L1"
        "2023-01-01T00:00:00Z" (some "xyz")
        (fun _ => "2024-01-01T00:00:00Z") 3).reqs,
      cursorTruthy q.cursor = true) ∧
    (∀ i recs,
      (get_payments (fun _ => Page.mk ["row"] none) "L1" "2022-01-01T00:00:00Z"
        none (fun _ => "2024-06-01T00:00:00Z") 3).ok = true →
      (get_payments (fun _ => Page.mk ["row"] none) "L1" "2022-01-01T00:00:00Z"
        none (fun _ => "2024-06-01T00:00:00Z") 3).yields.get? i =
        some (recs, some "xyz") →
      (get_payments (fun _ => Page.mk ["row"] none) "L1" "2023-01-01T00:00:00Z"
        (some "xyz") (fun _ => "2024-01-01T00:00:00Z") 3).yields =
        (get_payments (fun _ => Page.mk ["row"] none) "L1"
          "2022-01-01T00:00:00Z" none
          (fun _ => "2024-06-01T00:00:00Z") 3).yields.drop (i + 1) ∧
      (get_payments (fun _ => Page.mk ["row"] none) "L1" "2023-01-01T00:00:00Z"
        (some "xyz") (fun _ => "2024-01-01T00:00:00Z") 3).ok = true)) :=
  ⟨⟨fun _ _ _ => rfl, fun _ h => Option.noConfusion h, by decide, by decide⟩,
    c4_theorem (fun _ => Page.mk ["row"] none) (fun _ _ _ => rfl)
      (fun _ h => Option.noConfusion h) "L1" "2022-01-01T00:00:00Z"
      "2023-01-01T00:00:00Z" (fun _ => "2024-06-01T00:00:00Z")
      (fun _ => "2024-01-01T00:00:00Z") "xyz" (by decide) (by decide) 3⟩

/-- Claim C7: get_catalog and get_refunds place in begin_time the
supplied start timestamp moved back by exactly one millisecond: the
emitted value is the formatting of the parsed start minus 1000
microseconds, and that subtraction is exact on the datetime
linearization; in particular a start of 2023-01-01T00:00:00Z produces
begin_time 2022-12-31T23:59:59.999000Z. -/
theorem c7_theorem (s : String) (dt : PyDateTime)
    (hparse : strptime_to_utc s = some dt) (hvalid : ValidDT dt) :
    (∀ ot, get_catalog_body ot s =
      some ⟨[ot], true, singerStrftime (sub1msDT dt)⟩) ∧
    (∀ bc, get_refunds_body s bc =
      some ⟨singerStrftime (sub1msDT dt), bodyCursorFromBookmark bc⟩) ∧
    (dtToMicros (sub1msDT dt) + 1000 = dtToMicros dt) ∧
    (get_catalog_body "ITEM" "2023-01-01T00:00:00Z" =
      some ⟨["ITEM"], true, "2022-12-31T23:59:59.999000Z"⟩) ∧
    (get_refunds_body "2023-01-01T00:00:00Z" none =
      some ⟨"2022-12-31T23:59:59.999000Z", none⟩) := by
  refine ⟨?_, ?_, dtToMicros_sub1ms dt hvalid, rfl, rfl⟩
  · intro ot
    simp [get_catalog_body, adjustedBeginTime, hparse]
  · intro bc
    simp [get_refunds_body, adjustedBeginTime, hparse]

theorem c7_witness :
    (strptime_to_utc "2023-01-01T00:00:00Z" =
      some (PyDateTime.mk 2023 1 1 0 0 0 0) ∧
     ValidDT (PyDateTime.mk 2023 1 1 0 0 0 0)) ∧
    ((∀ ot, get_catalog_body ot "2023-01-01T00:00:00Z" =
        some ⟨[ot], true,
          singerStrftime (sub1msDT (PyDateTime.mk 2023 1 1 0 0 0 0))⟩) ∧
     (∀ bc, get_refunds_body "2023-01-01T00:00:00Z" bc =
        some ⟨singerStrftime (sub1msDT (PyDateTime.mk 2023 1 1 0 0 0 0)),
          bodyCursorFromBookmark bc⟩) ∧
     (dtToMicros (sub1msDT (PyDateTime.mk 2023 1 1 0 0 0 0)) + 1000 =
       dtToMicros (PyDateTime.mk 2023 1 1 0 0 0 0)) ∧
     (get_catalog_body "ITEM" "2023-01-01T00:00:00Z" =
       some ⟨["ITEM"], true, "2022-12-31T23:59:59.999000Z"⟩) ∧
     (get_refunds_body "2023-01-01T00:00:00Z" none =
       some ⟨"2022-12-31T23:59:59.999000Z", none⟩)) :=
  ⟨⟨rfl, by decide⟩,
    c7_theorem "2023-01-01T00:00:00Z" (PyDateTime.mk 2023 1 1 0 0 0 0)
      rfl (by decide)⟩

/-- Claim C8: in one run of get_payments, get_cash_drawer_shifts and
get_payouts, end_time is read from the clock once before the page loop
and every issued request of that run carries that same value. -/
theorem c8_theorem (srv : PayReq → Page) (loc start : String)
    (bookmarked : Option String) (clock : Nat → String) (fuel : Nat) :
    (∀ q ∈ (get_payments srv loc start bookmarked clock fuel).reqs,
      q.end_time = clock 0) ∧
    (∀ q ∈ (get_cash_drawer_shifts srv loc start bookmarked clock fuel).reqs,
      q.end_time = clock 0) ∧
    (∀ q ∈ (get_payouts srv loc start bookmarked clock fuel).reqs,
      q.end_time = clock 0) ∧
    (∀ q ∈ (get_payments srv loc start bookmarked clock fuel).reqs,
      ∀ q' ∈ (get_payments srv loc start bookmarked clock fuel).reqs,
        q.end_time = q'.end_time) ∧
    (∀ q ∈ (get_cash_drawer_shifts srv loc start bookmarked clock fuel).reqs,
      ∀ q' ∈ (get_cash_drawer_shifts srv loc start bookmarked clock fuel).reqs,
        q.end_time = q'.end_time) ∧
    (∀ q ∈ (get_payouts srv loc start bookmarked clock fuel).reqs,
      ∀ q' ∈ (get_payouts srv loc start bookmarked clock fuel).reqs,
        q.end_time = q'.end_time) := by
  have hp : ∀ q ∈ (get_payments srv loc start bookmarked clock fuel).reqs,
      q.end_time = clock 0 := by
    intro q hq
    simp only [get_payments] at hq
    exact (fixedWindowLoop_endTime srv loc start (clock 0) 100 bookmarked
      fuel _ q hq).1
  have hc : ∀ q ∈ (get_cash_drawer_shifts srv loc start bookmarked clock
      fuel).reqs, q.end_time = clock 0 := by
    intro q hq
    simp only [get_cash_drawer_shifts] at hq
    exact (fixedWindowLoop_endTime srv loc start (clock 0) 1000 bookmarked
      fuel _ q hq).1
  have hpo : ∀ q ∈ (get_payouts srv loc start bookmarked clock fuel).reqs,
      q.end_time = clock 0 := by
    intro q hq
    simp only [get_payouts] at hq
    exact (fixedWindowLoop_endTime srv loc start (clock 0) 100 bookmarked
      fuel _ q hq).1
  refine ⟨hp, hc, hpo, ?_, ?_, ?_⟩
  · intro q hq q' hq'
    rw [hp q hq, hp q' hq']
  · intro q hq q' hq'
    rw [hc q hq, hc q' hq']
  · intro q hq q' hq'
    rw [hpo q hq, hpo q' hq']

theorem c8_witness :
    (∀ q ∈ (get_payments (fun _ => Page.mk ["row"] none) "L1"
        "2023-01-01T00:00:00Z" none (fun _ => "2024-01-01T00:00:00Z") 2).reqs,
      q.end_time = (fun _ : Nat => "2024-01-01T00:00:00Z") 0) ∧
    (∀ q ∈ (get_cash_drawer_shifts (fun _ => Page.mk ["row"] none) "L1"
        "2023-01-01T00:00:00Z" none (fun _ => "2024-01-01T00:00:00Z") 2).reqs,
      q.end_time = (fun _ : Nat => "2024-01-01T00:00:00Z") 0) ∧
    (∀ q ∈ (get_payouts (fun _ => Page.mk ["row"] none) "L1"
        "2023-01-01T00:00:00Z" none (fun _ => "2024-01-01T00:00:00Z") 2).reqs,
      q.end_time = (fun _ : Nat => "2024-01-01T00:00:00Z") 0) ∧
    (∀ q ∈ (get_payments (fun _ => Page.mk ["row"] none) "L1"
        "2023-01-01T00:00:00Z" none (fun _ => "2024-01-01T00:00:00Z") 2).reqs,
      ∀ q' ∈ (get_payments (fun _ => Page.mk ["row"] none) "L1"
          "2023-01-01T00:00:00Z" none (fun _ => "2024-01-01T00:00:00Z") 2).reqs,
        q.end_time = q'.end_time) ∧
    (∀ q ∈ (get_cash_drawer_shifts (fun _ => Page.mk ["row"] none) "L1"
        "2023-01-01T00:00:00Z" none (fun _ => "2024-01-01T00:00:00Z") 2).reqs,
      ∀ q' ∈ (get_cash_drawer_shifts (fun _ => Page.mk ["row"] none) "L1"
          "2023-01-01T00:00:00Z" none (fun _ => "2024-01-01T00:00:00Z") 2).reqs,
        q.end_time = q'.end_time) ∧
    (∀ q ∈ (get_payouts (fun _ => Page.mk ["row"] none) "L1"
        "2023-01-01T00:00:00Z" none (fun _ => "2024-01-01T00:00:00Z") 2).reqs,
      ∀ q' ∈ (get_payouts (fun _ => Page.mk ["row"] none) "L1"
          "2023-01-01T00:00:00Z" none (fun _ => "2024-01-01T00:00:00Z") 2).reqs,
        q.end_time = q'.end_time) :=
  c8_theorem (fun _ => Page.mk ["row"] none) "L1" "2023-01-01T00:00:00Z" none
    (fun _ => "2024-01-01T00:00:00Z") 2

/-- Claim C9: on a successful refresh the persisted config is the
prior config merged with the new access and refresh tokens — every
other key keeps its prior value — and the config file is written only
on a successful refresh: an unneeded refresh leaves the store
untouched and returns the cached token, and a failed refresh leaves
the store untouched and raises. -/
theorem c9_theorem (st : ConfigStore) (status : TokenStatus) (now : Int)
    (obtain : Except (List String) (String × String)) :
    (require_new_access_token (st.mem "access_token") status now = false →
      get_access_token st status now obtain =
        (st, .ok (st.mem "access_token"))) ∧
    (∀ e, require_new_access_token (st.mem "access_token") status now = true →
      obtain = .error e →
      get_access_token st status now obtain = (st, .error e)) ∧
    (∀ tok refresh,
      require_new_access_token (st.mem "access_token") status now = true →
      obtain = .ok (tok, refresh) →
      ((get_access_token st status now obtain).2 = .ok (some tok) ∧
       (get_access_token st status now obtain).1.file =
         some (get_access_token st status now obtain).1.mem ∧
       (get_access_token st status now obtain).1.mem "access_token" =
         some tok ∧
       (get_access_token st status now obtain).1.mem "refresh_token" =
         some refresh ∧
       (∀ k, k ≠ "access_token" → k ≠ "refresh_token" →
         (get_access_token st status now obtain).1.mem k = st.mem k))) := by
  refine ⟨?_, ?_, ?_⟩
  · intro hno
    simp [get_access_token, hno]
  · intro e hyes herr
    subst herr
    simp [get_access_token, hyes]
  · intro tok refresh hyes hob
    subst hob
    simp only [get_access_token, hyes, if_pos, write_config]
    refine ⟨trivial, trivial, ?_, ?_, ?_⟩
    · simp [dictUpdate, List.lookup]
    · simp [dictUpdate, List.lookup]
    · intro k hk1 hk2
      have hb1 : (k == "access_token") = false := by simpa using hk1
      have hb2 : (k == "refresh_token") = false := by simpa using hk2
      simp [dictUpdate, List.lookup, hb1, hb2]

/-- A concrete config mapping used to instantiate the refresh
theorems: client credentials and an old refresh token, no access
token. -/
def cfgSample : Config := fun k =>
  if k = "client_id" then some "cid"
  else if k = "client_secret" then some "sec"
  else if k = "refresh_token" then some "oldref"
  else if k = "sandbox" then some "true"
  else none

theorem c9_witness :
    (require_new_access_token (cfgSample "access_token")
        (TokenStatus.ok 0) 0 = true ∧
      (Except.ok ("newtok", "newref") :
        Except (List String) (String × String)) = .ok ("newtok", "newref")) ∧
    ((get_access_token ⟨cfgSample, none⟩ (.ok 0) 0
        (.ok ("newtok", "newref"))).2 = .ok (some "newtok") ∧
     (get_access_token ⟨cfgSample, none⟩ (.ok 0) 0
        (.ok ("newtok", "newref"))).1.file =
       some (get_access_token ⟨cfgSample, none⟩ (.ok 0) 0
        (.ok ("newtok", "newref"))).1.mem ∧
     (get_access_token ⟨cfgSample, none⟩ (.ok 0) 0
        (.ok ("newtok", "newref"))).1.mem "access_token" = some "newtok" ∧
     (get_access_token ⟨cfgSample, none⟩ (.ok 0) 0
        (.ok ("newtok", "newref"))).1.mem "refresh_token" = some "newref" ∧
     (∀ k, k ≠ "access_token" → k ≠ "refresh_token" →
       (get_access_token ⟨cfgSample, none⟩ (.ok 0) 0
          (.ok ("newtok", "newref"))).1.mem k = cfgSample k)) :=
  ⟨⟨by decide, rfl⟩,
    (c9_theorem ⟨cfgSample, none⟩ (.ok 0) 0
      (.ok ("newtok", "newref"))).2.2 "newtok" "newref" (by decide) rfl⟩

/-- Claim C10: write_config mutates the caller's config dict in place
— the dict object at the caller's reference now carries the merged
entries, every other object is untouched — and returns the very same
reference, not a copy; consequently after a refresh triggered inside
_get_access_token the caller's own config dict contains the new token
values. -/
theorem c10_theorem (h : Heap) (r : Nat) (data : List (String × String))
    (status : TokenStatus) (now : Int)
    (obtain : Except (List String) (String × String)) :
    ((write_config_heap h r data).2 = r) ∧
    ((write_config_heap h r data).1 r = dictUpdate (h r) data) ∧
    (∀ r', r' ≠ r → (write_config_heap h r data).1 r' = h r') ∧
    (∀ tok refresh,
      require_new_access_token (h r "access_token") status now = true →
      obtain = .ok (tok, refresh) →
      ((get_access_token_heap h r status now obtain).1 r "access_token" =
         some tok ∧
       (get_access_token_heap h r status now obtain).1 r "refresh_token" =
         some refresh ∧
       (∀ r', r' ≠ r →
         (get_access_token_heap h r status now obtain).1 r' = h r'))) := by
  refine ⟨rfl, ?_, ?_, ?_⟩
  · simp [write_config_heap]
  · intro r' hr'
    simp [write_config_heap, hr']
  · intro tok refresh hyes hob
    subst hob
    simp only [get_access_token_heap, hyes, if_pos, write_config_heap]
    refine ⟨?_, ?_, ?_⟩
    · simp [dictUpdate, List.lookup]
    · simp [dictUpdate, List.lookup]
    · intro r' hr'
      simp [hr']

theorem c10_witness :
    (require_new_access_token ((fun _ : Nat => cfgSample) 0 "access_token")
        (.ok 0) 0 = true ∧
      (Except.ok ("newtok", "newref") :
        Except (List String) (String × String)) = .ok ("newtok", "newref")) ∧
    ((get_access_token_heap (fun _ => cfgSample) 0 (.ok 0) 0
        (.ok ("newtok", "newref"))).1 0 "access_token" = some "newtok" ∧
     (get_access_token_heap (fun _ => cfgSample) 0 (.ok 0) 0
        (.ok ("newtok", "newref"))).1 0 "refresh_token" = some "newref" ∧
     (∀ r', r' ≠ 0 →
       (get_access_token_heap (fun _ => cfgSample) 0 (.ok 0) 0
          (.ok ("newtok", "newref"))).1 r' = (fun _ : Nat => cfgSample) r')) :=
  ⟨⟨by decide, rfl⟩,
    (c10_theorem (fun _ => cfgSample) 0 [] (.ok 0) 0
      (.ok ("newtok", "newref"))).2.2.2 "newtok" "newref" (by decide) rfl⟩
